import Mathlib

/-!
Shallow embedding of the `panasonic_cn` integration (Python source under
`custom_components/panasonic_cn/`): the device model, the cloud client's
status fetch/patch cycle, the coordinator operations, and the fridge
status parser.  Python dicts are modelled as association lists with
first-occurrence lookup and in-place update (Python dict keys are unique,
so lookups agree with Python as long as key lists are duplicate-free);
Python exceptions are modelled with `Except`/`Option`; `time.time()` is an
explicit `Nat` parameter; HTTP traffic is an explicit outcome parameter.
-/

namespace PanasonicCN

/-- JSON-like Python values as they occur in the integration's status maps
and entity tables. -/
inductive Val where
  | vint : Int → Val
  | vstr : String → Val
  | vbool : Bool → Val
  | vnone : Val
  | vlist : List Val → Val
  | vdict : List (String × Val) → Val

/-- A Python dict with string keys (insertion-ordered association list). -/
abbrev Dict := List (String × Val)

/-- Python `d[k]` / `d.get(k)`: value at the first matching key. -/
def lookup : Dict → String → Option Val
  | [], _ => none
  | (k1, v) :: rest, k => if k1 = k then some v else lookup rest k

/-- Python `k in d`. -/
def hasKey (d : Dict) (k : String) : Bool :=
  (lookup d k).isSome

/-- Python `d[k] = v`: replace the value at an existing key in place,
otherwise append the new pair at the end (insertion order). -/
def setKey : Dict → String → Val → Dict
  | [], k, v => [(k, v)]
  | (k1, v1) :: rest, k, v =>
    if k1 = k then (k, v) :: rest else (k1, v1) :: setKey rest k v

/-- Python `list(d.keys())`. -/
def keys (d : Dict) : List String :=
  d.map Prod.fst

/-- `fridge.py`, `PanasonicFridge.parse_form`: start from a copy of the
sub-type's default-parameter table and overwrite every key of the raw
status that exists in that table (`if key in default_params`). -/
def parse_form (default_params status : Dict) : Dict :=
  status.foldl
    (fun parsed_status kv =>
      if hasKey default_params kv.1 then setKey parsed_status kv.1 kv.2 else parsed_status)
    default_params

/-- `fridge.py`, `FRIDGE_ENTITIES["Fridge-11"]["default_params"]`. -/
def fridge11DefaultParams : Dict :=
  [("PCTempSet", .vint 4),
   ("FCTempSet", .vint (-20)),
   ("SCS1TempSet", .vint 0),
   ("SCS2TempSet", .vint 0),
   ("SCB1TempSet", .vint (-5)),
   ("SCB2TempSet", .vint 0),
   ("quickFreeze", .vint 0),
   ("vacation", .vint 0),
   ("quickicing", .vint 0),
   ("icingStop", .vint 0),
   ("icingDeice", .vint 0),
   ("ecoNaviSet", .vint 0),
   ("freshFrozen", .vint 0),
   ("nanoe", .vint 0),
   ("zhencaiSet", .vint 0),
   ("silver", .vint 0),
   ("preservation", .vint 0),
   ("RAModeCur", .vint 0),
   ("SAModeCur", .vint 0),
   ("isTodoLimit", .vint 0)]

theorem lookup_setKey_self (d : Dict) (k : String) (v : Val) :
    lookup (setKey d k v) k = some v := by
  induction d with
  | nil => simp [setKey, lookup]
  | cons hd tl ih =>
    obtain ⟨k1, v1⟩ := hd
    by_cases h : k1 = k <;> simp [setKey, lookup, h, ih]

theorem lookup_setKey_ne (d : Dict) (k k1 : String) (v : Val) (h : k1 ≠ k) :
    lookup (setKey d k1 v) k = lookup d k := by
  induction d with
  | nil => simp [setKey, lookup, h]
  | cons hd tl ih =>
    obtain ⟨k2, v2⟩ := hd
    by_cases h2 : k2 = k1 <;> simp [setKey, lookup, h2, ih]
    · subst h2; simp [h, lookup]

theorem keys_setKey_of_hasKey (d : Dict) (k : String) (v : Val)
    (h : hasKey d k = true) : keys (setKey d k v) = keys d := by
  induction d with
  | nil => simp [hasKey, lookup] at h
  | cons hd tl ih =>
    obtain ⟨k1, v1⟩ := hd
    by_cases h1 : k1 = k
    · simp [setKey, keys, h1]
    · simp [hasKey, lookup, h1] at h
      simp [setKey, keys, h1] at ih ⊢
      exact ih h

theorem hasKey_iff_mem_keys (d : Dict) (k : String) :
    hasKey d k = true ↔ k ∈ keys d := by
  induction d with
  | nil => simp [hasKey, lookup, keys]
  | cons hd tl ih =>
    obtain ⟨k1, v1⟩ := hd
    by_cases h1 : k1 = k <;>
      simp [hasKey, lookup, keys, h1] at ih ⊢
    · tauto

theorem lookup_eq_none_iff (d : Dict) (k : String) :
    lookup d k = none ↔ hasKey d k = false := by
  unfold hasKey
  cases lookup d k <;> simp

theorem keys_parse_form_aux (D : Dict) (R : List (String × Val)) (acc : Dict)
    (hacc : keys acc = keys D) :
    keys (R.foldl
      (fun parsed_status kv =>
        if hasKey D kv.1 then setKey parsed_status kv.1 kv.2 else parsed_status) acc)
      = keys D := by
  induction R generalizing acc with
  | nil => simpa using hacc
  | cons hd tl ih =>
    obtain ⟨k, v⟩ := hd
    by_cases h : hasKey D k = true
    · have hk : hasKey acc k = true := by
        rw [hasKey_iff_mem_keys, hacc, ← hasKey_iff_mem_keys]; exact h
      simp only [List.foldl_cons, h, if_true]
      exact ih _ (by rw [keys_setKey_of_hasKey _ _ _ hk, hacc])
    · simp only [List.foldl_cons, h, if_false]
      exact ih _ hacc

theorem lookup_parse_form_aux_absent (D : Dict) (R : List (String × Val)) (acc : Dict)
    (k : String) (hk : hasKey R k = false) :
    lookup (R.foldl
      (fun parsed_status kv =>
        if hasKey D kv.1 then setKey parsed_status kv.1 kv.2 else parsed_status) acc) k
      = lookup acc k := by
  induction R generalizing acc with
  | nil => rfl
  | cons hd tl ih =>
    obtain ⟨k1, v1⟩ := hd
    have hne : k1 ≠ k := by
      intro h; subst h
      simp [hasKey, lookup] at hk
    have htl : hasKey tl k = false := by
      simpa [hasKey, lookup, hne] using hk
    by_cases h : hasKey D k1 = true
    · simp only [List.foldl_cons, h, if_true]
      rw [ih _ htl, lookup_setKey_ne _ _ _ _ hne]
    · simp only [List.foldl_cons, h, if_false]
      exact ih _ htl

theorem lookup_parse_form_aux_present (D : Dict) (R : List (String × Val)) (acc : Dict)
    (k : String) (v : Val) (hnd : (keys R).Nodup)
    (hD : hasKey D k = true) (hR : lookup R k = some v) :
    lookup (R.foldl
      (fun parsed_status kv =>
        if hasKey D kv.1 then setKey parsed_status kv.1 kv.2 else parsed_status) acc) k
      = some v := by
  induction R generalizing acc with
  | nil => simp [lookup] at hR
  | cons hd tl ih =>
    obtain ⟨k1, v1⟩ := hd
    simp only [keys, List.map_cons, List.nodup_cons] at hnd
    by_cases hne : k1 = k
    · subst hne
      simp only [lookup, if_true] at hR
      obtain rfl : v1 = v := by simpa using hR
      have htl : hasKey tl k1 = false := by
        rcases h : lookup tl k1 with _ | w
        · simp [hasKey, h]
        · exact absurd ((hasKey_iff_mem_keys tl k1).mp (by simp [hasKey, h]))
            hnd.1
      simp only [List.foldl_cons, hD, if_true]
      rw [lookup_parse_form_aux_absent _ _ _ _ htl, lookup_setKey_self]
    · have hR2 : lookup tl k = some v := by simpa [lookup, hne] using hR
      by_cases h : hasKey D k1 = true <;>
        simp only [List.foldl_cons, h, if_true, if_false] <;>
        exact ih _ hnd.2 hR2

/-- C1: for every sub-type default-parameter table `D` and raw status `R`
(with duplicate-free keys, as Python dicts guarantee), `parse_form D R`
has exactly the key set of `D`; every key of `D` maps to `R[k]` when
present in `R` and to the default `D[k]` otherwise; every key outside `D`
is dropped. -/
theorem parse_form_keyset_spec (D R : Dict) (hR : (keys R).Nodup) :
    keys (parse_form D R) = keys D ∧
    (∀ k, hasKey D k = true →
      lookup (parse_form D R) k =
        if hasKey R k = true then lookup R k else lookup D k) ∧
    (∀ k, hasKey D k = false → lookup (parse_form D R) k = none) := by
  refine ⟨keys_parse_form_aux D R D rfl, ?_, ?_⟩
  · intro k hD
    by_cases h : hasKey R k = true
    · obtain ⟨v, hv⟩ := Option.isSome_iff_exists.mp h
      rw [if_pos h, hv]
      exact lookup_parse_form_aux_present D R D k v hR hD hv
    · have h2 : hasKey R k = false := by simpa using h
      rw [if_neg h]
      exact lookup_parse_form_aux_absent D R D k h2
  · intro k hD
    rw [lookup_eq_none_iff]
    by_cases hres : hasKey (parse_form D R) k = true
    · exfalso
      have hmem := (hasKey_iff_mem_keys _ k).mp hres
      have hkeys : keys (parse_form D R) = keys D := keys_parse_form_aux D R D rfl
      rw [hkeys, ← hasKey_iff_mem_keys] at hmem
      simp [hD] at hmem
    · simpa using hres

theorem parse_form_keyset_spec_witness :
    keys (parse_form fridge11DefaultParams
        [("PCTempSet", Val.vint 7), ("junk", Val.vint 1)]) =
      keys fridge11DefaultParams ∧
    lookup (parse_form fridge11DefaultParams
        [("PCTempSet", Val.vint 7), ("junk", Val.vint 1)]) "PCTempSet" =
      some (Val.vint 7) ∧
    lookup (parse_form fridge11DefaultParams
        [("PCTempSet", Val.vint 7), ("junk", Val.vint 1)]) "FCTempSet" =
      some (Val.vint (-20)) ∧
    lookup (parse_form fridge11DefaultParams
        [("PCTempSet", Val.vint 7), ("junk", Val.vint 1)]) "junk" = none := by
  have h := parse_form_keyset_spec fridge11DefaultParams
    [("PCTempSet", Val.vint 7), ("junk", Val.vint 1)] (by decide)
  exact ⟨h.1, rfl, rfl, rfl⟩

/-- Outcome of one vendor-API HTTP call: `err` covers a raised transport
error, a non-2xx status (`raise_for_status`) and a protocol-level `error`
body where the code treats them alike. -/
inductive ApiResult (α : Type) where
  | ok : α → ApiResult α
  | err : String → ApiResult α

def ApiResult.isOk : ApiResult α → Bool
  | .ok _ => true
  | .err _ => false

/-- In-memory state of one `PanasonicDevice` instance (`base.py`).
`parsedStatus` is the `_parsed_status` attribute, which only the
`raw_status` setter ever creates (`none` = attribute never assigned);
`status` is the plain `status` attribute that `client.py` assigns —
the base class defines no such property, so this is a separate slot from
`_raw_status`/`_parsed_status`. -/
structure DeviceState where
  id : String
  type : String
  subType : String
  mno : String
  name : String
  rawStatus : Dict
  parsedStatus : Option Dict
  status : Option Dict
  cookie : String
  cookieCreateTime : Nat

/-- Split a character list at every separator occurrence (Python
`str.split` with a one-character separator, on the char list). -/
def splitChars (sep : Char) : List Char → List (List Char)
  | [] => [[]]
  | c :: cs =>
    match splitChars sep cs with
    | [] => [[]]
    | g :: gs => if c = sep then [] :: g :: gs else (c :: g) :: gs

/-- Python `s.split(sep)` for a one-character separator. -/
def pySplit (s : String) (sep : Char) : List String :=
  (splitChars sep s.data).map String.mk

/-- `base.py`, the `raw_status` setter: synchronously recompute
`_parsed_status` via the device's parser, then store the raw value. -/
def raw_status_setter (parse : Dict → Dict) (dev : DeviceState) (value : Dict) : DeviceState :=
  { dev with parsedStatus := some (parse value), rawStatus := value }

/-- `client.py`, `fetch_device_status`, success path (lines 322-324):
`device.status = data["results"]; return device.status`.  `status` is a
plain attribute, so this only fills the `status` slot and returns the raw
body; it never touches `_raw_status`/`_parsed_status`. -/
def fetch_device_status_apply (dev : DeviceState) (results : Dict) : DeviceState × Dict :=
  ({ dev with status := some results }, results)

/-- A fridge device as built for a recognized record (sub-type
`Fridge-11`), immediately after `__init__`. -/
def fridgeDemoDevice : DeviceState :=
  { id := "123456ABC_0100_XYZ", type := "0100", subType := "Fridge-11",
    mno := "MNO-1", name := "Fridge", rawStatus := [], parsedStatus := none,
    status := none, cookie := "", cookieCreateTime := 0 }

/-- Raw status body used as the concrete failing input for the fetch path:
one key from the default table with a non-default value, one key outside
the table. -/
def demoResults : Dict :=
  [("PCTempSet", Val.vint 7), ("junk", Val.vint 1)]

/-- C2 (code bug): a successful `fetch_device_status` assigns the response
body to the plain `status` attribute instead of the `raw_status` property,
so the parser never runs: `_parsed_status` and `_raw_status` are left
untouched, and the returned map is the raw body — it still contains the
out-of-table key `junk` and its key set differs from what the parser
would produce, contradicting the claim that the parsed status is
synchronously recomputed and returned. -/
theorem fetch_device_status_shadow_attribute :
    (fetch_device_status_apply fridgeDemoDevice demoResults).1.parsedStatus
        = fridgeDemoDevice.parsedStatus ∧
    (fetch_device_status_apply fridgeDemoDevice demoResults).1.rawStatus
        = fridgeDemoDevice.rawStatus ∧
    (fetch_device_status_apply fridgeDemoDevice demoResults).2 = demoResults ∧
    hasKey (fetch_device_status_apply fridgeDemoDevice demoResults).2 "junk" = true ∧
    lookup (parse_form fridge11DefaultParams demoResults) "junk" = none ∧
    keys (fetch_device_status_apply fridgeDemoDevice demoResults).2
        ≠ keys (parse_form fridge11DefaultParams demoResults) := by
  refine ⟨rfl, rfl, rfl, rfl, rfl, ?_⟩
  decide

/-- Python `value == 1` for the value kinds that occur in parsed status
maps (`True == 1` holds in Python; strings, lists, dicts and `None` never
equal `1`). -/
def pyEqOneVal : Val → Bool
  | .vint n => n == 1
  | .vbool b => b
  | _ => false

/-- `base.py`, `PanasonicDevice.get_switch_state`:
`self._parsed_status.get(key, 0) == 1`. -/
def get_switch_state (parsed : Dict) (key : String) : Bool :=
  pyEqOneVal ((lookup parsed key).getD (.vint 0))

/-- C10: `get_switch_state` is total over its inputs — the `.get(key, 0)`
read substitutes `0` for an absent key instead of raising — so an absent
key yields `false`, and the result is `true` exactly when the parsed
status holds a value at the key that Python-equals `1`. -/
theorem get_switch_state_total_spec (parsed : Dict) (key : String) :
    (lookup parsed key = none → get_switch_state parsed key = false) ∧
    (get_switch_state parsed key = true ↔
      ∃ v, lookup parsed key = some v ∧ pyEqOneVal v = true) := by
  constructor
  · intro h
    simp [get_switch_state, h, pyEqOneVal]
  · unfold get_switch_state
    cases h : lookup parsed key with
    | none => simp [pyEqOneVal]
    | some v => simp

theorem get_switch_state_total_spec_witness :
    get_switch_state [] "quickFreeze" = false ∧
    get_switch_state [("quickFreeze", Val.vint 1)] "quickFreeze" = true := by
  refine ⟨(get_switch_state_total_spec [] "quickFreeze").1 rfl, ?_⟩
  exact (get_switch_state_total_spec [("quickFreeze", Val.vint 1)] "quickFreeze").2.mpr
    ⟨Val.vint 1, rfl, rfl⟩

/-- CPython `int()` on a fractional number truncates toward zero. -/
def pyIntTrunc (value : ℚ) : Int :=
  if 0 ≤ value then ⌊value⌋ else ⌈value⌉

/-- `coordinator.py`, `async_set_number_value`: the kwargs passed to
`set_device_status` form the single-key patch `{control_key: int(value)}`.
The Python float argument is modelled as a rational; `int()` agrees with
rational truncation on every representable float. -/
def async_set_number_value_patch (control_key : String) (value : ℚ) : List (String × Val) :=
  [(control_key, .vint (pyIntTrunc value))]

/-- C9: the submitted patch value is `value` truncated toward zero —
`⌊value⌋` for nonnegative input, `⌈value⌉` for negative input, with
magnitude `⌊|value|⌋` — and in particular `3.9` is submitted as `3`
(and `-3.9` as `-3`), not rounded. -/
theorem async_set_number_value_truncates :
    async_set_number_value_patch "PCTempSet" (39 / 10 : ℚ)
        = [("PCTempSet", Val.vint 3)] ∧
    async_set_number_value_patch "PCTempSet" (-(39 / 10) : ℚ)
        = [("PCTempSet", Val.vint (-3))] ∧
    (∀ (k : String) (v : ℚ), 0 ≤ v →
      async_set_number_value_patch k v = [(k, Val.vint ⌊v⌋)]) ∧
    (∀ (k : String) (v : ℚ), v < 0 →
      async_set_number_value_patch k v = [(k, Val.vint ⌈v⌉)]) ∧
    (∀ v : ℚ, |(pyIntTrunc v : ℚ)| ≤ |v| ∧ |v| - 1 < |(pyIntTrunc v : ℚ)|) := by
  refine ⟨?_, ?_, ?_, ?_, ?_⟩
  · norm_num [async_set_number_value_patch, pyIntTrunc]
  · norm_num [async_set_number_value_patch, pyIntTrunc, Int.ceil_eq_iff]
  · intro k v hv
    simp [async_set_number_value_patch, pyIntTrunc, hv]
  · intro k v hv
    simp [async_set_number_value_patch, pyIntTrunc, not_le.mpr hv,
      not_le_of_lt hv]
  · intro v
    unfold pyIntTrunc
    by_cases hv : 0 ≤ v
    · rw [if_pos hv]
      have h0 : (0 : ℚ) ≤ (⌊v⌋ : ℚ) := by exact_mod_cast Int.floor_nonneg.mpr hv
      rw [abs_of_nonneg hv, abs_of_nonneg h0]
      exact ⟨Int.floor_le v, by linarith [Int.lt_floor_add_one v]⟩
    · push_neg at hv
      rw [if_neg (not_le.mpr hv)]
      have hz : ⌈v⌉ ≤ (0 : ℤ) := by
        rw [Int.ceil_le]; exact_mod_cast hv.le
      have h0 : (⌈v⌉ : ℚ) ≤ 0 := by exact_mod_cast hz
      rw [abs_of_neg hv, abs_of_nonpos h0]
      exact ⟨neg_le_neg (Int.le_ceil v), by linarith [Int.ceil_lt_add_one v]⟩

theorem async_set_number_value_truncates_witness :
    async_set_number_value_patch "FCTempSet" (5 : ℚ)
        = [("FCTempSet", Val.vint ⌊(5 : ℚ)⌋)] :=
  async_set_number_value_truncates.2.2.1 "FCTempSet" 5 (by norm_num)

/-- `client.py`, `set_device_status`, the update loop: for each kwarg,
`if key in new_status: new_status[key] = value` — only keys already
present in the fetched status are overwritten, nothing is added. -/
def merge_updates (new_status : Dict) (kwargs : List (String × Val)) : Dict :=
  kwargs.foldl
    (fun acc kv => if hasKey acc kv.1 then setKey acc kv.1 kv.2 else acc)
    new_status

/-- Result of one `set_device_status` call: the returned boolean, the
`params` object of the POST that was submitted (`none` if no POST
happened), and the device state afterwards. -/
structure PatchOutcome where
  success : Bool
  submitted : Option Dict
  dev : DeviceState

/-- `client.py`, `set_device_status`: obtain the device cookie (an empty
cookie aborts), run `fetch_device_status` (which stores the fetched raw
body in the device's `status` attribute; a failed fetch returns `None`
and the subsequent `key in None` raises `TypeError`, caught by the
handler — callers always pass at least one kwarg), overlay the kwargs
onto the fetched status in place (`new_status` and `device.status` are
the same dict object), POST the merged object, and return whether the
POST succeeded; the in-place overlay is kept regardless. -/
def set_device_status (dev : DeviceState) (cookieOk : Bool) (fetchOutcome : Option Dict)
    (submit : ApiResult Unit) (kwargs : List (String × Val)) : PatchOutcome :=
  if !cookieOk then ⟨false, none, dev⟩
  else
    match fetchOutcome with
    | none => ⟨false, none, dev⟩
    | some fetched =>
      let new_status := merge_updates fetched kwargs
      match submit with
      | .ok _ => ⟨true, some new_status, { dev with status := some new_status }⟩
      | .err _ => ⟨false, some new_status, { dev with status := some new_status }⟩

theorem keys_merge_updates (kwargs : List (String × Val)) (acc : Dict) :
    keys (merge_updates acc kwargs) = keys acc := by
  induction kwargs generalizing acc with
  | nil => rfl
  | cons hd tl ih =>
    obtain ⟨k, v⟩ := hd
    by_cases h : hasKey acc k = true
    · simp only [merge_updates, List.foldl_cons, h, if_true] at ih ⊢
      rw [ih, keys_setKey_of_hasKey _ _ _ h]
    · simp only [merge_updates, List.foldl_cons, h, if_false, Bool.false_eq_true] at ih ⊢
      exact ih acc

theorem lookup_merge_updates_absent (kwargs : List (String × Val)) (acc : Dict)
    (k : String) (h : hasKey kwargs k = false) :
    lookup (merge_updates acc kwargs) k = lookup acc k := by
  induction kwargs generalizing acc with
  | nil => rfl
  | cons hd tl ih =>
    obtain ⟨k1, v1⟩ := hd
    have hne : k1 ≠ k := by
      intro hcon; subst hcon
      simp [hasKey, lookup] at h
    have htl : hasKey tl k = false := by
      simpa [hasKey, lookup, hne] using h
    by_cases hacc : hasKey acc k1 = true <;>
      simp only [merge_updates, List.foldl_cons, hacc, if_true, if_false,
        Bool.false_eq_true] at ih ⊢
    · rw [ih _ htl, lookup_setKey_ne _ _ _ _ hne]
    · exact ih _ htl

theorem lookup_merge_updates_present (kwargs : List (String × Val)) (acc : Dict)
    (k : String) (v : Val) (hnd : (keys kwargs).Nodup)
    (hacc : hasKey acc k = true) (hk : lookup kwargs k = some v) :
    lookup (merge_updates acc kwargs) k = some v := by
  induction kwargs generalizing acc with
  | nil => simp [lookup] at hk
  | cons hd tl ih =>
    obtain ⟨k1, v1⟩ := hd
    simp only [keys, List.map_cons, List.nodup_cons] at hnd
    by_cases hne : k1 = k
    · subst hne
      simp only [lookup, if_true] at hk
      have hv : v1 = v := by simpa using hk
      have htl : hasKey tl k1 = false := by
        rcases h : lookup tl k1 with _ | w
        · simp [hasKey, h]
        · exact absurd ((hasKey_iff_mem_keys tl k1).mp (by simp [hasKey, h])) hnd.1
      simp only [merge_updates, List.foldl_cons, hacc, if_true]
      rw [show (tl.foldl
          (fun acc kv => if hasKey acc kv.1 then setKey acc kv.1 kv.2 else acc)
          (setKey acc k1 v1)) = merge_updates (setKey acc k1 v1) tl from rfl,
        lookup_merge_updates_absent _ _ _ htl, lookup_setKey_self, hv]
    · have hk2 : lookup tl k = some v := by simpa [lookup, hne] using hk
      by_cases h : hasKey acc k1 = true <;>
        simp only [merge_updates, List.foldl_cons, h, if_true, if_false,
          Bool.false_eq_true] at ih ⊢
      · refine ih _ hnd.2 ?_ hk2
        simpa [hasKey, lookup_setKey_ne _ _ _ _ hne] using hacc
      · exact ih _ hnd.2 hacc hk2

/-- C5: with the device cookie available and the current status fetched,
`set_device_status` submits exactly the fetched status overlaid with the
kwargs whose keys already exist in it (key set unchanged — unknown keys
are never added, untouched keys keep their fetched values), mirrors that
same overlaid object into the device's local `status`, succeeds iff the
POST does, and leaves the local status in the overlaid state even when
the POST fails. -/
theorem set_device_status_overlay_spec (dev : DeviceState) (fetched : Dict)
    (kwargs : List (String × Val)) (submit : ApiResult Unit)
    (hnd : (keys kwargs).Nodup) :
    (set_device_status dev true (some fetched) submit kwargs).submitted
        = some (merge_updates fetched kwargs) ∧
    (set_device_status dev true (some fetched) submit kwargs).dev.status
        = some (merge_updates fetched kwargs) ∧
    (set_device_status dev true (some fetched) submit kwargs).success = submit.isOk ∧
    keys (merge_updates fetched kwargs) = keys fetched ∧
    (∀ k v, hasKey fetched k = true → lookup kwargs k = some v →
      lookup (merge_updates fetched kwargs) k = some v) ∧
    (∀ k, hasKey kwargs k = false →
      lookup (merge_updates fetched kwargs) k = lookup fetched k) ∧
    (∀ k, hasKey fetched k = false →
      lookup (merge_updates fetched kwargs) k = none) := by
  refine ⟨?_, ?_, ?_, keys_merge_updates kwargs fetched,
    fun k v hf hk => lookup_merge_updates_present kwargs fetched k v hnd hf hk,
    fun k hk => lookup_merge_updates_absent kwargs fetched k hk, ?_⟩
  · cases submit <;> rfl
  · cases submit <;> rfl
  · cases submit <;> rfl
  · intro k hf
    rw [lookup_eq_none_iff]
    by_cases h : hasKey (merge_updates fetched kwargs) k = true
    · exfalso
      have hmem := (hasKey_iff_mem_keys _ k).mp h
      rw [keys_merge_updates, ← hasKey_iff_mem_keys] at hmem
      simp [hf] at hmem
    · simpa using h

theorem set_device_status_overlay_spec_witness :
    (set_device_status fridgeDemoDevice true
        (some [("PCTempSet", Val.vint 4), ("vacation", Val.vint 0)])
        (ApiResult.err "boom")
        [("vacation", Val.vint 1), ("ghost", Val.vint 5)]).submitted
      = some [("PCTempSet", Val.vint 4), ("vacation", Val.vint 1)] ∧
    (set_device_status fridgeDemoDevice true
        (some [("PCTempSet", Val.vint 4), ("vacation", Val.vint 0)])
        (ApiResult.err "boom")
        [("vacation", Val.vint 1), ("ghost", Val.vint 5)]).dev.status
      = some [("PCTempSet", Val.vint 4), ("vacation", Val.vint 1)] ∧
    (set_device_status fridgeDemoDevice true
        (some [("PCTempSet", Val.vint 4), ("vacation", Val.vint 0)])
        (ApiResult.err "boom")
        [("vacation", Val.vint 1), ("ghost", Val.vint 5)]).success = false ∧
    lookup (merge_updates [("PCTempSet", Val.vint 4), ("vacation", Val.vint 0)]
        [("vacation", Val.vint 1), ("ghost", Val.vint 5)]) "ghost" = none := by
  have h := set_device_status_overlay_spec fridgeDemoDevice
    [("PCTempSet", Val.vint 4), ("vacation", Val.vint 0)]
    [("vacation", Val.vint 1), ("ghost", Val.vint 5)]
    (ApiResult.err "boom") (by decide)
  exact ⟨h.1, h.2.1, h.2.2.1, h.2.2.2.2.2.2 "ghost" rfl⟩

/-- Cookie TTL in seconds (`base.py`, `COOKIE_EXPIRE = 3600`). -/
def COOKIE_EXPIRE : Nat := 3600

/-- `response.headers.get("set-cookie", "").split(";")[0]`: a missing
header reads as the empty string; `split(";")[0]` is exactly the prefix
of the string before its first semicolon (the whole string when none). -/
def extract_cookie (header : Option String) : String :=
  String.mk ((header.getD "").data.takeWhile (fun c => c ≠ ';'))

/-- `fridge.py`, `PanasonicFridge.get_device_cookie`.  `now` is
`time.time()`; `webFetch` is the outcome of the `httpx` GET to the
device's web URL: `none` a raised transport error (including non-2xx via
`raise_for_status`), `some h` a success whose `set-cookie` header is `h`.
Returns the cookie string handed to the caller, the device state
afterwards, and whether a network call was performed. -/
def get_device_cookie (dev : DeviceState) (now : Nat)
    (webFetch : Option (Option String)) : String × DeviceState × Bool :=
  if dev.cookie ≠ "" ∧ dev.cookieCreateTime + COOKIE_EXPIRE ≥ now then
    (dev.cookie, dev, false)
  else
    match webFetch with
    | none => ("", dev, true)
    | some header =>
      let cookie := extract_cookie header
      if cookie ≠ "" then
        (cookie, { dev with cookie := cookie, cookieCreateTime := now }, true)
      else
        ("", dev, true)

/-- Run a sequence of `get_device_cookie` calls (each with its own clock
reading and web outcome) and count how many performed a network call. -/
def run_cookie_calls (dev : DeviceState) :
    List (Nat × Option (Option String)) → DeviceState × Nat
  | [] => (dev, 0)
  | (now, f) :: rest =>
    let r := get_device_cookie dev now f
    let rec1 := run_cookie_calls r.2.1 rest
    (rec1.1, (if r.2.2 then 1 else 0) + rec1.2)

theorem get_device_cookie_hit (dev : DeviceState) (now : Nat)
    (f : Option (Option String)) (h1 : dev.cookie ≠ "")
    (h2 : now ≤ dev.cookieCreateTime + COOKIE_EXPIRE) :
    get_device_cookie dev now f = (dev.cookie, dev, false) := by
  unfold get_device_cookie
  rw [if_pos ⟨h1, h2⟩]

theorem get_device_cookie_miss_cond (dev : DeviceState) (now : Nat)
    (h : dev.cookie = "" ∨ dev.cookieCreateTime + COOKIE_EXPIRE < now) :
    ¬(dev.cookie ≠ "" ∧ dev.cookieCreateTime + COOKIE_EXPIRE ≥ now) := by
  rcases h with h | h
  · exact fun hc => hc.1 h
  · exact fun hc => absurd hc.2 (not_le.mpr h)

theorem get_device_cookie_miss_err (dev : DeviceState) (now : Nat)
    (h : dev.cookie = "" ∨ dev.cookieCreateTime + COOKIE_EXPIRE < now) :
    get_device_cookie dev now none = ("", dev, true) := by
  unfold get_device_cookie
  rw [if_neg (get_device_cookie_miss_cond dev now h)]

theorem get_device_cookie_miss_empty (dev : DeviceState) (now : Nat)
    (h0 : Option String) (h : dev.cookie = "" ∨ dev.cookieCreateTime + COOKIE_EXPIRE < now)
    (hex : extract_cookie h0 = "") :
    get_device_cookie dev now (some h0) = ("", dev, true) := by
  unfold get_device_cookie
  rw [if_neg (get_device_cookie_miss_cond dev now h)]
  simp [hex]

theorem get_device_cookie_miss_success (dev : DeviceState) (now : Nat)
    (h0 : Option String) (h : dev.cookie = "" ∨ dev.cookieCreateTime + COOKIE_EXPIRE < now)
    (hex : extract_cookie h0 ≠ "") :
    get_device_cookie dev now (some h0) =
      (extract_cookie h0,
       { dev with cookie := extract_cookie h0, cookieCreateTime := now }, true) := by
  unfold get_device_cookie
  rw [if_neg (get_device_cookie_miss_cond dev now h)]
  simp [hex]

theorem get_device_cookie_call_flag (dev : DeviceState) (now : Nat)
    (f : Option (Option String))
    (h : dev.cookie = "" ∨ dev.cookieCreateTime + COOKIE_EXPIRE < now) :
    (get_device_cookie dev now f).2.2 = true := by
  unfold get_device_cookie
  rw [if_neg (get_device_cookie_miss_cond dev now h)]
  rcases f with _ | h0
  · rfl
  · by_cases hex : extract_cookie h0 = "" <;> simp [hex]

/-- The cached device with a live cookie used at the TTL boundary. -/
def boundaryDemoDevice : DeviceState :=
  { fridgeDemoDevice with cookie := "JSESSIONID=abc" }

/-- C6 counterexample: with a cookie created at time `0` and the clock at
exactly `TTL = 3600` — so `(now - createdAt) < TTL` is false and the
claim requires a web fetch — the code's `>=` comparison serves the cached
cookie and performs no network call. -/
theorem get_device_cookie_ttl_boundary :
    get_device_cookie boundaryDemoDevice 3600 (some (some "JSESSIONID=new"))
      = ("JSESSIONID=abc", boundaryDemoDevice, false) := by
  exact get_device_cookie_hit _ _ _ (by decide) (by decide)

/-- C6 amended: the cache window is inclusive — the cached cookie is
returned without any network call whenever it is non-empty and
`now ≤ createdAt + TTL`; only when the cookie is empty or `now` strictly
exceeds `createdAt + TTL` is one web fetch performed, which caches and
returns the extracted cookie on success and returns `""` on failure
(transport error or missing/empty `set-cookie`) without retrying; and in
the expired/success scenario two calls inside the inclusive window cost
one network call, a third call past the window a second one. -/
theorem get_device_cookie_cache_spec (dev : DeviceState) (now : Nat)
    (f : Option (Option String)) :
    (dev.cookie ≠ "" → now ≤ dev.cookieCreateTime + COOKIE_EXPIRE →
      get_device_cookie dev now f = (dev.cookie, dev, false)) ∧
    ((dev.cookie = "" ∨ dev.cookieCreateTime + COOKIE_EXPIRE < now) →
      (get_device_cookie dev now f).2.2 = true ∧
      (f = none → get_device_cookie dev now f = ("", dev, true)) ∧
      (∀ h0, f = some h0 → extract_cookie h0 = "" →
        get_device_cookie dev now f = ("", dev, true)) ∧
      (∀ h0, f = some h0 → extract_cookie h0 ≠ "" →
        get_device_cookie dev now f =
          (extract_cookie h0,
           { dev with cookie := extract_cookie h0, cookieCreateTime := now }, true))) ∧
    (∀ (t0 t1 t2 : Nat) (h0 : Option String) (g1 g2 : Option (Option String)),
      dev.cookie = "" → extract_cookie h0 ≠ "" →
      t0 ≤ t1 → t1 ≤ t0 + COOKIE_EXPIRE → t0 + COOKIE_EXPIRE < t2 →
      (run_cookie_calls dev [(t0, some h0), (t1, g1), (t2, g2)]).2 = 2) := by
  refine ⟨fun h1 h2 => get_device_cookie_hit dev now f h1 h2,
    fun h => ⟨get_device_cookie_call_flag dev now f h, ?_, ?_, ?_⟩, ?_⟩
  · rintro rfl
    exact get_device_cookie_miss_err dev now h
  · rintro h0 rfl hex
    exact get_device_cookie_miss_empty dev now h0 h hex
  · rintro h0 rfl hex
    exact get_device_cookie_miss_success dev now h0 h hex
  · intro t0 t1 t2 h0 g1 g2 hempty hex ht01 ht1 ht2
    have s1 := get_device_cookie_miss_success dev t0 h0 (Or.inl hempty) hex
    have s2 := get_device_cookie_hit
      { dev with cookie := extract_cookie h0, cookieCreateTime := t0 } t1 g1 hex ht1
    have s3 := get_device_cookie_call_flag
      { dev with cookie := extract_cookie h0, cookieCreateTime := t0 } t2 g2 (Or.inr ht2)
    simp only [run_cookie_calls, s1, s2]
    rcases hc : get_device_cookie
      { dev with cookie := extract_cookie h0, cookieCreateTime := t0 } t2 g2
      with ⟨c, dev2, called⟩
    rw [hc] at s3
    simp only at s3
    simp [s3]

theorem get_device_cookie_cache_spec_witness :
    get_device_cookie boundaryDemoDevice 100 none
      = ("JSESSIONID=abc", boundaryDemoDevice, false) ∧
    (run_cookie_calls fridgeDemoDevice
      [(0, some (some "SID=1; Path=/")), (3600, none), (3601, none)]).2 = 2 := by
  have h1 := get_device_cookie_cache_spec boundaryDemoDevice 100 none
  have h2 := get_device_cookie_cache_spec fridgeDemoDevice 0 none
  exact ⟨h1.1 (by decide) (by decide),
    h2.2.2 0 3600 3601 (some "SID=1; Path=/") none none rfl (by decide)
      (by decide) (by decide) (by decide)⟩

/-- One HTTP response as the client observes it: whether
`raise_for_status` passes, the parsed JSON body, and the `set-cookie`
header (`None` when the server sent none — `headers.get("set-cookie")`
then yields `None` and `.split` raises `AttributeError`). -/
structure HttpResp where
  okStatus : Bool
  body : Dict
  setCookie : Option String

/-- Session state of `PanasonicCNClient` (`client.py`, `__init__`):
`_ssid`, `_cookie`, `_user_id`, `_family_id`, `_real_family_id`, and the
per-process `_message_id` counter.  The JSON-sourced fields hold whatever
value the response carried, so they are `Val`-typed; the cookie is the
header prefix string. -/
structure ClientState where
  ssid : Val
  cookie : String
  userId : Val
  familyId : Val
  realFamilyId : Val
  messageId : Nat

/-- Fresh client: every session field empty, counter zero. -/
def initClientState : ClientState :=
  { ssid := .vstr "", cookie := "", userId := .vstr "", familyId := .vstr "",
    realFamilyId := .vstr "", messageId := 0 }

/-- The five session fields the authentication claim is about (everything
except the request counter). -/
def sessionFields (st : ClientState) : Val × Val × Val × Val × String :=
  (st.userId, st.familyId, st.realFamilyId, st.ssid, st.cookie)

/-- `client.py`, `authenticate`, step 1 (`UsrGetToken`): bump the message
counter for the request, then either fail (transport error / non-2xx /
`error` body / missing `set-cookie` / missing `results.token`, every such
exception caught by the function's handler) or produce the login cookie
and token for step 2.  `none` in the second component means `authenticate`
returns `False` with the first component as the client state. -/
def token_step (st : ClientState) (tokenResp : Option HttpResp) :
    ClientState × Option (String × Val) :=
  let st1 := { st with messageId := st.messageId + 1 }
  match tokenResp with
  | none => (st1, none)
  | some tr =>
    if tr.okStatus = false then (st1, none)
    else if hasKey tr.body "error" = true then (st1, none)
    else
      match tr.setCookie with
      | none => (st1, none)
      | some sc =>
        match lookup tr.body "results" with
        | some (.vdict res) =>
          match lookup res "token" with
          | some tok => (st1, some (extract_cookie (some sc), tok))
          | none => (st1, none)
        | _ => (st1, none)

/-- `client.py`, `authenticate`, step 2 (`UsrLogin`): bump the counter,
check transport/2xx/`error`, adopt a non-empty new cookie, then assign
`_user_id`, `_real_family_id`, `_family_id`, `_ssid` one after another
(a missing key raises `KeyError` at that point, keeping the assignments
already made). -/
def login_step (st : ClientState) (loginResp : Option HttpResp) : Bool × ClientState :=
  let st1 := { st with messageId := st.messageId + 1 }
  match loginResp with
  | none => (false, st1)
  | some lr =>
    if lr.okStatus = false then (false, st1)
    else if hasKey lr.body "error" = true then (false, st1)
    else
      match lr.setCookie with
      | none => (false, st1)
      | some sc =>
        let new_cookie := extract_cookie (some sc)
        let st2 := if new_cookie ≠ "" then { st1 with cookie := new_cookie } else st1
        match lookup lr.body "results" with
        | some (.vdict lres) =>
          (match lookup lres "usrId" with
           | none => (false, st2)
           | some u =>
             let st3 := { st2 with userId := u }
             match lookup lres "realFamilyId" with
             | none => (false, st3)
             | some rf =>
               let st4 := { st3 with realFamilyId := rf }
               match lookup lres "familyId" with
               | none => (false, st4)
               | some fm =>
                 let st5 := { st4 with familyId := fm }
                 match lookup lres "ssId" with
                 | none => (false, st5)
                 | some s => (true, { st5 with ssid := s }))
        | _ => (false, st2)

/-- `client.py`, `authenticate`: run step 1; on its failure return
`False` (the handler caught the exception or the early `return False`
fired); otherwise run step 2 with the obtained login cookie and token
(both only feed the request that produced `loginResp`). -/
def authenticate (st : ClientState) (tokenResp loginResp : Option HttpResp) :
    Bool × ClientState :=
  match token_step st tokenResp with
  | (st1, none) => (false, st1)
  | (st1, some _) => login_step st1 loginResp

theorem token_step_fields (st : ClientState) (t : Option HttpResp) :
    sessionFields (token_step st t).1 = sessionFields st := by
  unfold token_step
  cases t with
  | none => rfl
  | some tr =>
    simp only []
    repeat' split
    all_goals rfl

theorem login_step_bad (st : ClientState) (lr : HttpResp)
    (h : lr.okStatus = false ∨ hasKey lr.body "error" = true) :
    (login_step st (some lr)).1 = false ∧
    sessionFields (login_step st (some lr)).2 = sessionFields st := by
  rcases h with h | h
  · simp [login_step, h, sessionFields]
  · cases hok : lr.okStatus <;> simp [login_step, h, hok, sessionFields]

/-- C7: `authenticate` returns failure on a transport error or non-2xx
status or an `error` body in either of the two calls, and in each of
these failure cases the account id, both family ids, the session id and
the session cookie are exactly as before the call (for a fresh client:
all unpopulated) — only the request counter advances. -/
theorem authenticate_failure_no_partial_state (st : ClientState)
    (tokenResp loginResp : Option HttpResp) :
    (tokenResp = none →
      (authenticate st tokenResp loginResp).1 = false ∧
      sessionFields (authenticate st tokenResp loginResp).2 = sessionFields st) ∧
    (∀ tr, tokenResp = some tr →
      (tr.okStatus = false ∨ hasKey tr.body "error" = true) →
      (authenticate st tokenResp loginResp).1 = false ∧
      sessionFields (authenticate st tokenResp loginResp).2 = sessionFields st) ∧
    (loginResp = none →
      (authenticate st tokenResp loginResp).1 = false ∧
      sessionFields (authenticate st tokenResp loginResp).2 = sessionFields st) ∧
    (∀ lr, loginResp = some lr →
      (lr.okStatus = false ∨ hasKey lr.body "error" = true) →
      (authenticate st tokenResp loginResp).1 = false ∧
      sessionFields (authenticate st tokenResp loginResp).2 = sessionFields st) := by
  have htf := token_step_fields st tokenResp
  refine ⟨?_, ?_, ?_, ?_⟩
  · rintro rfl
    exact ⟨rfl, rfl⟩
  · rintro tr rfl hbad
    have hnone : (token_step st (some tr)).2 = none := by
      rcases hbad with h | h
      · simp [token_step, h]
      · cases hok : tr.okStatus <;> simp [token_step, h, hok]
    rcases hts : token_step st (some tr) with ⟨st1, rest⟩
    rw [hts] at hnone htf
    subst hnone
    simp only [authenticate, hts]
    exact ⟨trivial, htf⟩
  · rintro rfl
    rcases hts : token_step st tokenResp with ⟨st1, rest⟩
    rw [hts] at htf
    cases rest with
    | none => simp only [authenticate, hts]; exact ⟨trivial, htf⟩
    | some x =>
      simp only [authenticate, hts, login_step]
      exact ⟨trivial, htf⟩
  · rintro lr rfl hbad
    rcases hts : token_step st tokenResp with ⟨st1, rest⟩
    rw [hts] at htf
    cases rest with
    | none => simp only [authenticate, hts]; exact ⟨trivial, htf⟩
    | some x =>
      have hls := login_step_bad st1 lr hbad
      simp only [authenticate, hts]
      exact ⟨hls.1, hls.2.trans htf⟩

theorem authenticate_failure_no_partial_state_witness :
    (authenticate initClientState none none).1 = false ∧
    sessionFields (authenticate initClientState none none).2 =
      (Val.vstr "", Val.vstr "", Val.vstr "", Val.vstr "", "") := by
  have h := (authenticate_failure_no_partial_state initClientState none none).1 rfl
  exact ⟨h.1, h.2.trans rfl⟩

/-- Python `d[k]` with `KeyError` carried as the missing key. -/
def getItem (d : Dict) (k : String) : Except String Val :=
  match lookup d k with
  | some v => .ok v
  | none => .error k

/-- Python `v == s` between a JSON value and a string. -/
def pyEqStrVal (v : Val) (s : String) : Bool :=
  match v with
  | .vstr t => t = s
  | _ => false

/-- `fridge.py`, `FRIDGE_ENTITIES["Fridge-11"]` (the value
`get_preference` returns for a Fridge-11 device), transcribed entry for
entry; the option-group members live under the key `"options"`. -/
def fridge11Preference : Dict :=
  [("select", .vlist [
      .vdict
        [("unique_id", .vstr "mode"),
         ("key", .vstr "mode"),
         ("name", .vstr "模式"),
         ("options", .vlist [
            .vdict [("name", .vstr "速冻"), ("key", .vstr "quickFreeze")],
            .vdict [("name", .vstr "假期模式"), ("key", .vstr "vacation")],
            .vdict [("name", .vstr "快速制冰"), ("key", .vstr "quickicing")],
            .vdict [("name", .vstr "制冰停止"), ("key", .vstr "icingStop")],
            .vdict [("name", .vstr "制冰清洁"), ("key", .vstr "icingDeice")]])]]),
   ("sensor", .vlist [
      .vdict [("unique_id", .vstr "pc_temp_current"),
              ("name", .vstr "冷藏室当前温度"),
              ("key", .vstr "PCTempCur"), ("unit", .vstr "°C")],
      .vdict [("unique_id", .vstr "fc_temp_current"),
              ("name", .vstr "冷冻室当前温度"),
              ("key", .vstr "FCTempCur"), ("unit", .vstr "°C")],
      .vdict [("unique_id", .vstr "scb1_temp_current"),
              ("name", .vstr "软冻室当前温度"),
              ("key", .vstr "SCB1TempCur"), ("unit", .vstr "°C")]]),
   ("number", .vlist [
      .vdict [("unique_id", .vstr "pc_temp_set"),
              ("name", .vstr "冰箱设定温度"),
              ("key", .vstr "PCTempSet"), ("unit", .vstr "°C"),
              ("min_value", .vint 0), ("max_value", .vint 10),
              ("step", .vint 1)],
      .vdict [("unique_id", .vstr "fc_temp_set"),
              ("name", .vstr "冷冻室设定温度"),
              ("key", .vstr "FCTempSet"), ("unit", .vstr "°C"),
              ("min_value", .vint (-20)), ("max_value", .vint 0),
              ("step", .vint 1)],
      .vdict [("unique_id", .vstr "scb1_temp_set"),
              ("name", .vstr "软冻室设定温度"),
              ("key", .vstr "SCB1TempSet"), ("unit", .vstr "°C"),
              ("min_value", .vint (-20)), ("max_value", .vint 10),
              ("step", .vint 1)]]),
   ("default_params", .vdict fridge11DefaultParams)]

/-- `base.py`, `get_select_items`, inner loop over
`select_group["items"]`: build the `items` dict mapping each member's own
key to `{"key": ..., "name": ..., "status": parsed.get(key, 0) == 1}`.
A member that is not a dict, or whose `key` is not a string, cannot be
subscripted/hashed as the source does (`TypeError`). -/
def select_items_loop (parsed : Dict) : List Val → Dict → Except String Dict
  | [], items => .ok items
  | it :: rest, items =>
    match it with
    | .vdict d => do
      let kv ← getItem d "key"
      let nv ← getItem d "name"
      match kv with
      | .vstr ks =>
        select_items_loop parsed rest
          (setKey items ks (.vdict
            [("key", kv), ("name", nv),
             ("status", .vbool (pyEqOneVal ((lookup parsed ks).getD (.vint 0))))]))
      | _ => .error "TypeError"
    | _ => .error "TypeError"

/-- `base.py`, `get_select_items`, outer loop over `preference["select"]`:
find the group whose `key` equals the requested key, then iterate
`select_group["items"]` (a `KeyError "items"` when the group does not
carry that key) and stop (`break`); no matching group yields `{}`. -/
def select_group_loop (parsed : Dict) (key : String) : List Val → Except String Dict
  | [] => .ok []
  | g :: rest =>
    match g with
    | .vdict gd => do
      let gk ← getItem gd "key"
      if pyEqStrVal gk key then do
        let itemsVal ← getItem gd "items"
        match itemsVal with
        | .vlist its => select_items_loop parsed its []
        | _ => .error "TypeError"
      else select_group_loop parsed key rest
    | _ => .error "TypeError"

/-- `base.py`, `PanasonicDevice.get_select_items(key)` against a device
whose `get_preference()` returns `pref` and whose `_parsed_status` is
`parsed`. -/
def get_select_items (pref parsed : Dict) (key : String) : Except String Dict := do
  let sel ← getItem pref "select"
  match sel with
  | .vlist groups => select_group_loop parsed key groups
  | _ => .error "TypeError"

/-- Every method/property name resolvable on a `PanasonicFridge`
instance: the `base.py` `PanasonicDevice` class body plus the
`fridge.py` `PanasonicFridge` class body. -/
def panasonicFridgeMethodNames : List String :=
  ["id", "raw_status", "parsed_status", "type", "sub_type", "name", "token",
   "get_device_cookie", "parse_status", "get_entities", "get_preference",
   "get_value", "get_select_items", "get_switch_state", "get_number_value",
   "parse_form"]

/-- The method name `coordinator.py`, `async_select_option` (and
`select.py`) actually invoke on the device. -/
def coordinatorSelectMethodName : String := "get_select_options"

/-- C3 (code bug): `selectOption` can never issue its patch.  The
coordinator calls `device.get_select_options`, a name defined by neither
`PanasonicDevice` nor `PanasonicFridge` (`AttributeError`); and even the
base class's `get_select_items` fails on every Fridge-11 parsed status,
because it reads `select_group["items"]` while the fridge's `mode` group
stores its members under `"options"` (`KeyError: "items"`). -/
theorem async_select_option_broken (parsed : Dict) :
    get_select_items fridge11Preference parsed "mode" = Except.error "items" ∧
    coordinatorSelectMethodName ∉ panasonicFridgeMethodNames := by
  exact ⟨rfl, by decide⟩

/-- One record of `results.devList` as `get_devices` consumes it:
`deviceId` plus the `params` fields read by `__init__`. -/
structure DevRecord where
  deviceId : String
  devSubTypeId : String
  deviceMNO : String
  deviceName : String

/-- `mapping.py`, `DEVICE_TYPES`: the registered type codes (the sole
entry `"0100"` maps to `PanasonicFridge`). -/
def DEVICE_TYPES_keys : List String := ["0100"]

/-- The `@abstractmethod`-decorated names of `PanasonicDevice`
(`base.py`). -/
def panasonicDeviceAbstractMethods : List String :=
  ["get_device_cookie", "parse_status", "get_entities", "get_preference"]

/-- The method names `PanasonicFridge` overrides in its own class body
(`fridge.py`) — note `parse_form`, not `parse_status`. -/
def panasonicFridgeOverrides : List String :=
  ["get_device_cookie", "parse_form", "get_preference", "get_entities"]

/-- Python ABC machinery: a class with `ABCMeta` can be instantiated only
when every inherited abstract method has a concrete override; otherwise
`PanasonicFridge(device_info, self)` raises `TypeError`. -/
def fridgeInstantiable : Bool :=
  panasonicDeviceAbstractMethods.all (panasonicFridgeOverrides.contains ·)

/-- `base.py`, `PanasonicDevice.__init__`, field initialization for a
record whose type code `t` was already derived: `_raw_status = {}`,
empty cookie, creation time 0, and neither `_parsed_status` nor `status`
exists yet (the derived `_token`, a pure sha512 of identifier segments,
is not needed by any claim and is not modelled). -/
def mkFridgeDevice (rec : DevRecord) (t : String) : DeviceState :=
  { id := rec.deviceId, type := t, subType := rec.devSubTypeId,
    mno := rec.deviceMNO, name := rec.deviceName, rawStatus := [],
    parsedStatus := none, status := none, cookie := "", cookieCreateTime := 0 }

/-- `self._devices[device_id] = ...` on the device table. -/
def setDevice : List (String × DeviceState) → String → DeviceState →
    List (String × DeviceState)
  | [], k, d => [(k, d)]
  | (k1, d1) :: rest, k, d =>
    if k1 = k then (k, d) :: rest else (k1, d1) :: setDevice rest k d

/-- `client.py`, `get_devices`, construction loop over
`results.devList` acting on the freshly cleared `_devices` table:
derive `device_id.split("_")[1]` (a malformed id raises `IndexError`),
silently skip type codes absent from `DEVICE_TYPES`, construct the
registered class for recognized ones — which for `PanasonicFridge`
raises `TypeError`, because the abstract `parse_status` has no override.
Returns the table as built when the loop stopped and whether it ran to
completion. -/
def build_devices_loop : List DevRecord → List (String × DeviceState) →
    List (String × DeviceState) × Bool
  | [], acc => (acc, true)
  | rec :: rest, acc =>
    match (pySplit rec.deviceId '_').get? 1 with
    | none => (acc, false)
    | some t =>
      if DEVICE_TYPES_keys.contains t then
        if fridgeInstantiable then
          build_devices_loop rest (setDevice acc rec.deviceId (mkFridgeDevice rec t))
        else (acc, false)
      else build_devices_loop rest acc

/-- `client.py`, `get_devices`: a transport error, non-2xx or `error`
body is caught and answered with a fresh empty dict, leaving
`self._devices` untouched; a well-formed response first clears
`_devices` and rebuilds it — if construction raises, the handler again
returns the empty dict while `_devices` keeps whatever was built before
the exception.  First component: the client's `_devices` afterwards;
second: the mapping handed back to the caller. -/
def get_devices (devices : List (String × DeviceState))
    (resp : ApiResult (List DevRecord)) :
    List (String × DeviceState) × List (String × DeviceState) :=
  match resp with
  | .err _ => (devices, [])
  | .ok recs =>
    match build_devices_loop recs [] with
    | (tbl, true) => (tbl, tbl)
    | (tbl, false) => (tbl, [])

/-- `coordinator.py`, `_async_update_data`, per-device loop: for every
device of the enumerated table call `fetch_device_status`, which either
succeeds (storing the body in the device's `status` slot) or returns
`None` after logging — it never raises into the loop, and a failure for
one device leaves that entry untouched while the loop continues. -/
def refresh_loop (tbl : List (String × DeviceState))
    (fetch : String → Option Dict) : List (String × DeviceState) :=
  tbl.map (fun e =>
    match fetch e.1 with
    | some res => (e.1, (fetch_device_status_apply e.2 res).1)
    | none => e)

/-- `coordinator.py`, `_async_update_data`: run `get_devices` (which
swallows its own failures and returns a dict), then the per-device fetch
loop (whose failures `continue`); `UpdateFailed` — `Except.error` here —
is raised only when the body itself raises, which neither call does. -/
def coordinator_update_data (devices : List (String × DeviceState))
    (resp : ApiResult (List DevRecord)) (fetch : String → Option Dict) :
    Except String (List (String × DeviceState)) :=
  Except.ok (refresh_loop (get_devices devices resp).2 fetch)

/-- C4 counterexample: a total enumeration failure (transport error on
`UsrGetBindDevInfo`) does NOT surface as an update failure — `get_devices`
catches it and returns `{}`, so the refresh cycle completes with
`Except.ok []` instead of the update-failure signal the claim requires. -/
theorem update_data_enum_failure_swallowed :
    coordinator_update_data [] (ApiResult.err "ConnectError") (fun _ => none)
      = Except.ok [] := rfl

/-- C4 amended: a total enumeration failure is swallowed — the cycle
completes successfully with an empty device table (every device's state
simply goes stale because the table is empty); and within the per-device
loop each device is refreshed independently: the key list is preserved,
a device whose fetch fails keeps its previous state, and a device whose
fetch succeeds gets the fetched body, regardless of other devices'
failures. -/
theorem coordinator_update_data_amended (devices : List (String × DeviceState))
    (msg : String) (fetch : String → Option Dict)
    (tbl : List (String × DeviceState)) :
    coordinator_update_data devices (ApiResult.err msg) fetch = Except.ok [] ∧
    (refresh_loop tbl fetch).map Prod.fst = tbl.map Prod.fst ∧
    (∀ id dev, (id, dev) ∈ tbl → fetch id = none →
      (id, dev) ∈ refresh_loop tbl fetch) ∧
    (∀ id dev res, (id, dev) ∈ tbl → fetch id = some res →
      (id, { dev with status := some res }) ∈ refresh_loop tbl fetch) := by
  refine ⟨rfl, ?_, ?_, ?_⟩
  · induction tbl with
    | nil => rfl
    | cons hd tl ih =>
      obtain ⟨id, dev⟩ := hd
      cases h : fetch id <;>
        simp only [refresh_loop, List.map_cons, h, List.cons.injEq] at ih ⊢ <;>
        exact ⟨trivial, ih⟩
  · intro id dev hmem hf
    have : (fun e : String × DeviceState =>
        match fetch e.1 with
        | some res => (e.1, (fetch_device_status_apply e.2 res).1)
        | none => e) (id, dev) = (id, dev) := by
      simp [hf]
    exact this ▸ List.mem_map_of_mem _ hmem
  · intro id dev res hmem hf
    have : (fun e : String × DeviceState =>
        match fetch e.1 with
        | some res => (e.1, (fetch_device_status_apply e.2 res).1)
        | none => e) (id, dev) = (id, { dev with status := some res }) := by
      simp [hf, fetch_device_status_apply]
    exact this ▸ List.mem_map_of_mem _ hmem

/-- Fetch oracle for the amended-claim witness: device `b` succeeds,
everything else fails. -/
def demoFetch : String → Option Dict :=
  fun id => if id = "b" then some demoResults else none

theorem coordinator_update_data_amended_witness :
    coordinator_update_data [] (ApiResult.err "boom") demoFetch = Except.ok [] ∧
    ("a", fridgeDemoDevice) ∈
      refresh_loop [("a", fridgeDemoDevice), ("b", fridgeDemoDevice)] demoFetch ∧
    ("b", { fridgeDemoDevice with status := some demoResults }) ∈
      refresh_loop [("a", fridgeDemoDevice), ("b", fridgeDemoDevice)] demoFetch := by
  have h := coordinator_update_data_amended [] "boom" demoFetch
    [("a", fridgeDemoDevice), ("b", fridgeDemoDevice)]
  exact ⟨h.1, h.2.2.1 "a" fridgeDemoDevice (by simp) rfl,
    h.2.2.2 "b" fridgeDemoDevice demoResults (by simp) rfl⟩

/-- The recognized record of the two-device enumeration response. -/
def recognizedDemoRecord : DevRecord :=
  { deviceId := "123456ABC_0100_XYZ", devSubTypeId := "Fridge-11",
    deviceMNO := "MNO-1", deviceName := "Fridge" }

/-- The unrecognized record (type code `9999` has no registry entry). -/
def unrecognizedDemoRecord : DevRecord :=
  { deviceId := "654321DEF_9999_QQQ", devSubTypeId := "X-1",
    deviceMNO := "MNO-2", deviceName := "Mystery" }

/-- A previously enumerated device table. -/
def oldDemoTable : List (String × DeviceState) :=
  [("OLD_0100_X", fridgeDemoDevice)]

/-- C8 (code bug): enumerating one recognized and one unrecognized device
yields a table of size 0, not 1 — `PanasonicFridge` leaves the abstract
`parse_status` without an override (it defines `parse_form` instead), so
constructing it raises `TypeError`, the handler returns `{}`, and the
previously held devices are gone from the returned table as well. -/
theorem get_devices_fridge_not_instantiable :
    fridgeInstantiable = false ∧
    "parse_status" ∈ panasonicDeviceAbstractMethods ∧
    "parse_status" ∉ panasonicFridgeOverrides ∧
    (get_devices oldDemoTable
      (ApiResult.ok [recognizedDemoRecord, unrecognizedDemoRecord])).2 = [] ∧
    (get_devices oldDemoTable
      (ApiResult.ok [recognizedDemoRecord, unrecognizedDemoRecord])).1 = [] := by
  exact ⟨by decide, by decide, by decide, rfl, rfl⟩

end PanasonicCN
